import Mathlib

/-!
Verification of the span-stitching (annotator) logic and validation gates of
the text-summarizer repository.

The repository consists of two small Gradio apps:
* `app.py` — single-model summarizer with `summarize_text(text, max_len, min_len)`;
* `text-summarizer-ner/app.py` — summarizer plus NER with
  `TextProcessor.process(text, max_len, min_len)`, whose lines 102–116 stitch
  the NER spans back into an ordered list of `(substring, label-or-None)`
  segments for `gr.HighlightedText`.

The model pipelines themselves are external; they are embedded as oracle
arguments (`Option` of a function returning `Except`, so that a raised
exception and a successful inference result are both representable).
Python string slicing `s[a:b]` with its index clamping and negative-index
semantics is embedded as `pySlice`, and `str.strip()` as `pyStrip`.
-/

namespace SummarizerApp

/-- One aggregated NER result as produced by the HF pipeline and consumed by
the stitching loop: the code reads `entity['start']`, `entity['end']` and
`entity['entity_group']`.  The field `end` is spelled `stop` because `end` is
a Lean keyword.  Offsets are integers: Python performs no bounds checking on
them. -/
structure Entity where
  start : Int
  stop : Int
  entity_group : String
deriving DecidableEq, Repr

/-- One output element of the stitching loop: a tuple
`(summary_text[..:..], label)` where the label is `entity['entity_group']`
for entity segments and `None` for gap segments. -/
structure Segment where
  text : String
  label : Option String
deriving DecidableEq, Repr

/-- Resolution of one slice index, following Python semantics for `s[a:b]`
with integer `a`, `b`: a negative index counts from the end (clamped below at
0 via `Int.toNat`), a nonnegative index is clamped above at the length. -/
def pyIdx (n : Nat) (i : Int) : Nat :=
  if i < 0 then ((n : Int) + i).toNat else min i.toNat n

/-- Python string slice `s[a:b]`: the characters with resolved index `j`
satisfying `a' ≤ j < b'`.  Total; out-of-range indices are clamped, never an
error. -/
def pySlice (s : String) (a b : Int) : String :=
  String.mk ((s.data.take (pyIdx s.length b)).drop (pyIdx s.length a))

/-- Python `str.isspace` membership for the ASCII whitespace characters
removed by `str.strip()`. -/
def pyIsSpace (c : Char) : Bool :=
  c == ' ' || c == '\t' || c == '\n' || c == '\x0b' || c == '\x0c' || c == '\r'

/-- Python `str.strip()`: remove leading and trailing whitespace. -/
def pyStrip (s : String) : String :=
  String.mk (((s.data.dropWhile pyIsSpace).reverse.dropWhile pyIsSpace).reverse)

/-- The stitching loop of `TextProcessor.process` (lines 102–116), with the
loop state (`cursor`) made explicit and the trailing
`if cursor < len(summary_text)` emission folded into the base case:

```
formatted_output = []
cursor = 0
for entity in ner_res:
    if entity['start'] > cursor:
        formatted_output.append((summary_text[cursor:entity['start']], None))
    formatted_output.append((summary_text[entity['start']:entity['end']],
                             entity['entity_group']))
    cursor = entity['end']
if cursor < len(summary_text):
    formatted_output.append((summary_text[cursor:], None))
```
-/
def stitchFrom (summary_text : String) : Int → List Entity → List Segment
  | cursor, [] =>
    if cursor < (summary_text.length : Int) then
      [⟨pySlice summary_text cursor (summary_text.length : Int), none⟩]
    else []
  | cursor, entity :: rest =>
    (if entity.start > cursor then
      [⟨pySlice summary_text cursor entity.start, none⟩]
    else []) ++
    ⟨pySlice summary_text entity.start entity.stop, some entity.entity_group⟩ ::
    stitchFrom summary_text entity.stop rest

/-- The span annotator of the spec: the stitching loop run from cursor 0.
This is exactly the computation `TextProcessor.process` performs on
`summary_text` and `ner_res`. -/
def annotate (text : String) (spans : List Entity) : List Segment :=
  stitchFrom text 0 spans

/-- Well-formedness of a span list relative to a cursor position `c`:
every span is in bounds (`start < stop ≤ n`), non-degenerate, starts at or
after `c`, and the spans are chained left to right (hence sorted ascending by
`start` and pairwise non-overlapping, `spans[i].stop ≤ spans[i+1].start`). -/
def WellFormedFrom (n : Nat) : Int → List Entity → Prop
  | _, [] => True
  | c, e :: rest =>
    c ≤ e.start ∧ e.start < e.stop ∧ e.stop ≤ (n : Int) ∧ WellFormedFrom n e.stop rest

/-- Well-formedness of a span list for a text of length `n`, as the spec
states it: each span has `0 ≤ start < end ≤ n`, the list is sorted ascending
by `start`, and consecutive spans do not overlap. -/
def WellFormed (n : Nat) (spans : List Entity) : Prop :=
  WellFormedFrom n 0 spans

def decWellFormedFrom (n : Nat) : (c : Int) → (es : List Entity) →
    Decidable (WellFormedFrom n c es)
  | _, [] => isTrue trivial
  | c, e :: rest =>
    have : Decidable (WellFormedFrom n e.stop rest) := decWellFormedFrom n e.stop rest
    inferInstanceAs (Decidable (_ ∧ _ ∧ _ ∧ _))

instance (n : Nat) (c : Int) (es : List Entity) : Decidable (WellFormedFrom n c es) :=
  decWellFormedFrom n c es

instance (n : Nat) (es : List Entity) : Decidable (WellFormed n es) :=
  decWellFormedFrom n 0 es

/-- Concatenation of the `text` fields of a segment list, in order. -/
def concatTexts (segs : List Segment) : String :=
  segs.foldr (fun seg acc => seg.text ++ acc) ""

/-- The segments of the output carrying a non-`None` label. -/
def labeled (segs : List Segment) : List Segment :=
  segs.filter (fun seg => seg.label.isSome)

/-! ### The two app handlers

A pipeline oracle maps the call arguments to `Except.error e` (the Python
call raised an exception with message `e`, caught by the surrounding
`try`/`except`) or `Except.ok r` (the call returned `r`).  A pipeline that
failed to load is `none`, matching `summarizer = None` /
`self.summarizer = None` after a load failure. -/

/-- Message literal of `app.py` line 45. -/
def notLoadedMsg : String := "Error: Model not loaded correctly. Check logs."

/-- Message literal of `app.py` line 48. -/
def emptyMsg : String := "⚠️ Please enter some text to summarize."

/-- Message literal of `app.py` line 51. -/
def tooShortMsg : String := "⚠️ Input text is too short. Please provide a longer paragraph."

/-- Message literal of `text-summarizer-ner/app.py` line 82. -/
def notInitMsg : String := "⚠️ Error: Models not initialized. See logs."

/-- Message literal of `text-summarizer-ner/app.py` line 85. -/
def nerTooShortMsg : String := "⚠️ Text too short. Please provide at least 50 characters."

/-- `summarize_text` of `app.py` (lines 40–64):

```
if summarizer is None: return "Error: Model not loaded correctly. Check logs."
if not text or not text.strip(): return "⚠️ Please enter some text to summarize."
if len(text) < 50: return "⚠️ Input text is too short. Please provide a longer paragraph."
try:
    summary_list = summarizer(text, max_length=..., min_length=..., do_sample=False)
    return summary_list[0]['summary_text']
except Exception as e:
    return f"An error occurred: {str(e)}"
```

The oracle stands for the whole `try` body: extraction of
`summary_list[0]['summary_text']` happens inside the `try`, so any failure
there is part of the oracle's `Except.error`. -/
def summarize_text (summarizer : Option (String → Int → Int → Except String String))
    (text : String) (max_len min_len : Int) : String :=
  match summarizer with
  | none => notLoadedMsg
  | some f =>
    if text = "" ∨ pyStrip text = "" then emptyMsg
    else if text.length < 50 then tooShortMsg
    else
      match f text max_len min_len with
      | Except.ok summary => summary
      | Except.error e => "An error occurred: " ++ e

/-- `TextProcessor.process` of `text-summarizer-ner/app.py` (lines 74–122):

```
if not self.summarizer or not self.ner_pipeline:
    return "⚠️ Error: Models not initialized. See logs.", []
if not text or len(text.strip()) < 50:
    return "⚠️ Text too short. Please provide at least 50 characters.", []
try:
    summary_text = self.summarizer(...)[0]['summary_text']
    ner_res = self.ner_pipeline(summary_text)
    ... stitching loop (see stitchFrom) ...
    return summary_text, formatted_output
except Exception as e:
    return f"Error during processing: {e}", []
```
-/
def TextProcessor.process
    (summarizer : Option (String → Int → Int → Except String String))
    (ner_pipeline : Option (String → Except String (List Entity)))
    (text : String) (max_len min_len : Int) : String × List Segment :=
  match summarizer, ner_pipeline with
  | some s, some n =>
    if text = "" ∨ (pyStrip text).length < 50 then (nerTooShortMsg, [])
    else
      match s text max_len min_len with
      | Except.error e => ("Error during processing: " ++ e, [])
      | Except.ok summary_text =>
        match n summary_text with
        | Except.error e => ("Error during processing: " ++ e, [])
        | Except.ok ner_res => (summary_text, stitchFrom summary_text 0 ner_res)
  | _, _ => (notInitMsg, [])

/-! ### Concrete values used by witnesses and counterexamples -/

/-- A stub summarizer oracle that always succeeds. -/
def okSummarizer : String → Int → Int → Except String String :=
  fun _ _ _ => Except.ok "SUMMARY"

/-- A stub NER oracle that always succeeds with no entities. -/
def okNer : String → Except String (List Entity) :=
  fun _ => Except.ok []

/-- Sixty spaces: blank but longer than the 50-character threshold. -/
def spaces60 : String := String.mk (List.replicate 60 ' ')

/-- 49 letters followed by 20 spaces: untrimmed length 69, trimmed length 49. -/
def padded : String := String.mk (List.replicate 49 'a' ++ List.replicate 20 ' ')

/-- A non-blank input longer than 50 characters. -/
def sampleLong : String :=
  "Apollo 11 was the American spaceflight that first landed humans on the Moon."

/-! ### Basic facts about the embedded string operations -/

theorem length_data (s : String) : s.length = s.data.length := by
  cases s
  rfl

theorem mk_data (s : String) : String.mk s.data = s := by
  cases s
  rfl

theorem mk_append (a b : List Char) : String.mk a ++ String.mk b = String.mk (a ++ b) := rfl

theorem concatTexts_nil : concatTexts [] = "" := rfl

theorem concatTexts_cons (seg : Segment) (rest : List Segment) :
    concatTexts (seg :: rest) = seg.text ++ concatTexts rest := rfl

theorem concatTexts_append (xs ys : List Segment) :
    concatTexts (xs ++ ys) = concatTexts xs ++ concatTexts ys := by
  induction xs with
  | nil => rfl
  | cons seg rest ih =>
    show seg.text ++ concatTexts (rest ++ ys) = (seg.text ++ concatTexts rest) ++ concatTexts ys
    rw [ih, String.append_assoc]

theorem pyIdx_of_nonneg_le {n : Nat} {i : Int} (h0 : 0 ≤ i) (h : i ≤ (n : Int)) :
    pyIdx n i = i.toNat := by
  unfold pyIdx
  split <;> omega

theorem pyIdx_ge_length {n : Nat} {i : Int} (h : (n : Int) ≤ i) : pyIdx n i = n := by
  unfold pyIdx
  split <;> omega

theorem take_drop_chain {α : Type} (l : List α) {a b d : Nat}
    (hab : a ≤ b) (hbd : b ≤ d) (hd : d ≤ l.length) :
    (l.take b).drop a ++ (l.take d).drop b = (l.take d).drop a := by
  have hsplit : l.take d = l.take b ++ (l.take d).drop b := by
    conv_lhs => rw [← List.take_append_drop b (l.take d)]
    rw [List.take_take, Nat.min_eq_left hbd]
  calc (l.take b).drop a ++ (l.take d).drop b
      = (l.take b ++ (l.take d).drop b).drop a := by
        rw [List.drop_append_of_le_length (by simp; omega)]
    _ = (l.take d).drop a := by rw [← hsplit]

theorem pySlice_append (s : String) {a b d : Int} (h0 : 0 ≤ a) (hab : a ≤ b)
    (hbd : b ≤ d) (hd : d ≤ (s.length : Int)) :
    pySlice s a b ++ pySlice s b d = pySlice s a d := by
  have h0b : (0 : Int) ≤ b := le_trans h0 hab
  have h0d : (0 : Int) ≤ d := le_trans h0b hbd
  unfold pySlice
  rw [pyIdx_of_nonneg_le h0 (by omega), pyIdx_of_nonneg_le h0b (by omega),
    pyIdx_of_nonneg_le h0d hd, mk_append,
    take_drop_chain s.data (by omega) (by omega) (by rw [← length_data]; omega)]

theorem pySlice_zero_length (s : String) : pySlice s 0 ((s.length : Int)) = s := by
  unfold pySlice
  rw [pyIdx_ge_length (le_refl _), pyIdx_of_nonneg_le (le_refl 0) (by omega),
    show ((0 : Int)).toNat = 0 from rfl, List.drop_zero, length_data,
    List.take_length, mk_data]

theorem pySlice_same (s : String) (a : Int) : pySlice s a a = "" := by
  unfold pySlice
  rw [List.drop_eq_nil_of_le (by simp)]

theorem pySlice_ne_empty (s : String) {a b : Int} (h0 : 0 ≤ a) (hab : a < b)
    (hb : b ≤ (s.length : Int)) : pySlice s a b ≠ "" := by
  unfold pySlice
  rw [pyIdx_of_nonneg_le h0 (by omega), pyIdx_of_nonneg_le (by omega) hb]
  intro h
  have hdat : (s.data.take b.toNat).drop a.toNat = [] := congrArg String.data h
  have hlen := congrArg List.length hdat
  simp only [List.length_drop, List.length_take, List.length_nil] at hlen
  rw [length_data] at hb
  omega

theorem labeled_append (xs ys : List Segment) :
    labeled (xs ++ ys) = labeled xs ++ labeled ys := by
  simp [labeled, List.filter_append]

theorem labeled_cons (seg : Segment) (rest : List Segment) :
    labeled (seg :: rest) =
      if seg.label.isSome then seg :: labeled rest else labeled rest := by
  simp [labeled, List.filter_cons]

/-! ### Behavior of the stitching loop -/

/-- Loop invariant of the stitching loop: run with a well-formed remaining
span list from cursor `c`, the emitted segment texts concatenate to
`summary_text[c:]`. -/
theorem stitchFrom_concat (text : String) (es : List Entity) : ∀ (c : Int),
    0 ≤ c → c ≤ (text.length : Int) → WellFormedFrom text.length c es →
    concatTexts (stitchFrom text c es) = pySlice text c (text.length : Int) := by
  induction es with
  | nil =>
    intro c h0 hc _
    simp only [stitchFrom]
    split
    · simp only [concatTexts_cons, concatTexts_nil, String.append_empty]
    · have hce : c = (text.length : Int) := by omega
      rw [hce, pySlice_same]
      rfl
  | cons e rest ih =>
    intro c h0 hc hwf
    simp only [WellFormedFrom] at hwf
    obtain ⟨hce, hss, hsl, hrest⟩ := hwf
    simp only [stitchFrom]
    rw [concatTexts_append]
    by_cases hgap : e.start > c
    · rw [if_pos hgap]
      simp only [concatTexts_cons, concatTexts_nil, String.append_empty]
      rw [ih e.stop (by omega) hsl hrest,
        pySlice_append text (by omega) (le_of_lt hss) hsl (le_refl _),
        pySlice_append text h0 (by omega) (by omega) (le_refl _)]
    · rw [if_neg hgap]
      simp only [concatTexts_nil, concatTexts_cons, String.empty_append]
      rw [ih e.stop (by omega) hsl hrest]
      have hc2 : c = e.start := by omega
      rw [hc2, pySlice_append text (by omega) (le_of_lt hss) hsl (le_refl _)]

/-- The labeled segments emitted by the stitching loop are exactly one per
input span, in order, each carrying that span's slice and label. -/
theorem labeled_stitchFrom (text : String) (es : List Entity) : ∀ (c : Int),
    labeled (stitchFrom text c es) =
      es.map (fun e => ⟨pySlice text e.start e.stop, some e.entity_group⟩) := by
  induction es with
  | nil =>
    intro c
    simp only [stitchFrom]
    split <;> simp [labeled]
  | cons e rest ih =>
    intro c
    simp only [stitchFrom]
    rw [labeled_append, labeled_cons]
    have hgapl :
        labeled (if e.start > c then [⟨pySlice text c e.start, none⟩] else []) = [] := by
      split <;> simp [labeled]
    rw [hgapl, ih e.stop]
    simp

/-- No segment emitted by the stitching loop is empty, given a well-formed
remaining span list and an in-range cursor. -/
theorem stitchFrom_ne_empty (text : String) (es : List Entity) : ∀ (c : Int),
    0 ≤ c → c ≤ (text.length : Int) → WellFormedFrom text.length c es →
    ∀ seg ∈ stitchFrom text c es, seg.text ≠ "" := by
  induction es with
  | nil =>
    intro c h0 hc _ seg hseg
    simp only [stitchFrom] at hseg
    split at hseg
    · simp at hseg
      subst hseg
      exact pySlice_ne_empty text h0 (by omega) (le_refl _)
    · simp at hseg
  | cons e rest ih =>
    intro c h0 hc hwf seg hseg
    simp only [WellFormedFrom] at hwf
    obtain ⟨hce, hss, hsl, hrest⟩ := hwf
    simp only [stitchFrom, List.mem_append, List.mem_cons] at hseg
    rcases hseg with hg | he | hrec
    · split at hg
      · simp at hg
        subst hg
        exact pySlice_ne_empty text h0 (by omega) (by omega)
      · simp at hg
    · subst he
      exact pySlice_ne_empty text (by omega) hss hsl
    · exact ih e.stop (by omega) hsl hrest seg hrec

/-! ### Claim theorems for the span annotator -/

/-- Claim C1: for every text string and every well-formed span sequence
(chained from 0, i.e. sorted ascending, pairwise non-overlapping, each span
with `0 ≤ start < end ≤ length text`), concatenating the `text` fields of
the Segments returned by the span annotator, in order, yields the original
text exactly. -/
theorem annotate_roundtrip (text : String) (spans : List Entity)
    (h : WellFormed text.length spans) :
    concatTexts (annotate text spans) = text := by
  unfold annotate
  rw [stitchFrom_concat text spans 0 (le_refl 0) (by omega) h, pySlice_zero_length]

/-- Witness for C1 at the spec's "adjacent entities with gap" example. -/
theorem annotate_roundtrip_witness :
    WellFormed ("Tom met Jerry".length) [⟨0, 3, "PER"⟩, ⟨8, 13, "PER"⟩] ∧
    concatTexts (annotate "Tom met Jerry" [⟨0, 3, "PER"⟩, ⟨8, 13, "PER"⟩]) = "Tom met Jerry" :=
  ⟨by decide, annotate_roundtrip "Tom met Jerry" [⟨0, 3, "PER"⟩, ⟨8, 13, "PER"⟩] (by decide)⟩

/-- Claim C2, refuted: the stitching loop performs no bounds validation and
never raises; `annotate "short" [{0, 10, "X"}]` silently truncates the
out-of-bounds slice to the whole 5-character string and returns a normal
segment list instead of failing with any `InvalidSpan` error. -/
theorem annotate_out_of_bounds_no_error :
    annotate "short" [⟨0, 10, "X"⟩] = [⟨"short", some "X"⟩] := by decide

/-- Claim C2 as amended: a span whose `end` exceeds `length text` is clamped
by Python slice semantics — the annotator behaves exactly as if `end` were
`length text`, returning segments with no error. -/
theorem annotate_clamps_out_of_bounds (text : String) (a b : Int) (lab : String)
    (hb : (text.length : Int) ≤ b) :
    annotate text [⟨a, b, lab⟩] = annotate text [⟨a, (text.length : Int), lab⟩] := by
  have h5 : pySlice text a b = pySlice text a ((text.length : Int)) := by
    unfold pySlice
    rw [pyIdx_ge_length hb, pyIdx_ge_length (le_refl _)]
  unfold annotate
  simp only [stitchFrom]
  rw [if_neg (not_lt.mpr hb), if_neg (lt_irrefl ((text.length : Int))), h5]

/-- Witness for the amended C2 at the spec's own out-of-bounds example. -/
theorem annotate_clamps_out_of_bounds_witness :
    annotate "short" [⟨0, 10, "X"⟩] = annotate "short" [⟨0, ("short".length : Int), "X"⟩] :=
  annotate_clamps_out_of_bounds "short" 0 10 "X" (by decide)

/-- Claim C3: for a well-formed span sequence, the Segments carrying a
non-none label are exactly one per input span, in input order, each with text
`text[span.start:span.end]` and label `span.entity_group`; in particular
their number equals the number of input spans. -/
theorem annotate_label_fidelity (text : String) (spans : List Entity)
    (h : WellFormed text.length spans) :
    labeled (annotate text spans) =
        spans.map (fun e => ⟨pySlice text e.start e.stop, some e.entity_group⟩) ∧
      (labeled (annotate text spans)).length = spans.length := by
  constructor
  · unfold annotate
    exact labeled_stitchFrom text spans 0
  · unfold annotate
    rw [labeled_stitchFrom text spans 0]
    simp

/-- Witness for C3 at the spec's "leading entity" example. -/
theorem annotate_label_fidelity_witness :
    WellFormed ("Paris is big".length) [⟨0, 5, "LOC"⟩] ∧
    (labeled (annotate "Paris is big" [⟨0, 5, "LOC"⟩])).length = 1 :=
  ⟨by decide, by
    simpa using (annotate_label_fidelity "Paris is big" [⟨0, 5, "LOC"⟩] (by decide)).2⟩

/-- Claim C4: annotating any non-empty text with an empty span sequence
returns exactly one Segment holding the whole text with label none, and
annotating the empty string with no spans returns no Segments. -/
theorem annotate_empty_spans (text : String) :
    annotate text [] = if text = "" then [] else [⟨text, none⟩] := by
  unfold annotate
  simp only [stitchFrom]
  by_cases h : text = ""
  · subst h
    decide
  · have hpos : 0 < text.length := by
      cases text with
      | mk data =>
        cases data with
        | nil => exact absurd rfl h
        | cons a l => simp
    rw [if_pos (show (0 : Int) < (text.length : Int) by omega), if_neg h,
      pySlice_zero_length]

/-- Claim C5: for non-empty text and a well-formed span sequence, no Segment
in the annotator's output has empty text. -/
theorem annotate_no_empty_segment (text : String) (spans : List Entity)
    (htext : text ≠ "") (h : WellFormed text.length spans) :
    ∀ seg ∈ annotate text spans, seg.text ≠ "" := by
  unfold annotate
  exact stitchFrom_ne_empty text spans 0 (le_refl 0) (by omega) h

/-- Witness for C5: the leading entity segment of the spec's example is
non-empty. -/
theorem annotate_no_empty_segment_witness :
    (⟨"Paris", some "LOC"⟩ : Segment).text ≠ "" :=
  annotate_no_empty_segment "Paris is big" [⟨0, 5, "LOC"⟩] (by decide) (by decide)
    ⟨"Paris", some "LOC"⟩ (by decide)

/-- Claim C8: the span annotator is deterministic — two invocations with
equal text and equal span sequences return equal Segment sequences.  (In
this embedding `annotate` is a pure function of exactly its two arguments,
mirroring that the Python loop reads only `summary_text` and `ner_res` and
touches no shared state.) -/
theorem annotate_deterministic (t1 t2 : String) (s1 s2 : List Entity)
    (ht : t1 = t2) (hs : s1 = s2) : annotate t1 s1 = annotate t2 s2 := by
  rw [ht, hs]

/-- Witness for C8 at a concrete repeated invocation. -/
theorem annotate_deterministic_witness :
    annotate "Tom met Jerry" [⟨4, 7, "MISC"⟩] = annotate "Tom met Jerry" [⟨4, 7, "MISC"⟩] :=
  annotate_deterministic "Tom met Jerry" "Tom met Jerry" [⟨4, 7, "MISC"⟩] [⟨4, 7, "MISC"⟩]
    rfl rfl

/-! ### Claim theorems for the validation gates and handlers -/

/-- Claim C6, refuted for the NER app's gate: `TextProcessor.process` has a
single combined check `not text or len(text.strip()) < 50` with one message,
so a whitespace-only input of 60 spaces and a 10-character input both yield
the same "Text too short" advisory — there is no distinct blank-input
advisory checked first. -/
theorem gate_no_distinct_advisories :
    TextProcessor.process (some okSummarizer) (some okNer) spaces60 130 30
        = (nerTooShortMsg, []) ∧
      TextProcessor.process (some okSummarizer) (some okNer) "0123456789" 130 30
        = (nerTooShortMsg, []) := by
  constructor <;> rfl

/-- Claim C6 as amended: in the single-model app (`app.py`), blank input and
too-short input produce distinct advisories, the blank check runs first
(60 spaces yield the blank advisory), and neither outcome depends on the
inference oracle; in the NER app, blank or short input is rejected by one
combined check producing the single "Text too short" advisory. -/
theorem validation_gate_advisories
    (f g : String → Int → Int → Except String String)
    (p : String → Except String (List Entity))
    (text : String) (max_len min_len : Int) :
    ((text = "" ∨ pyStrip text = "") →
      summarize_text (some f) text max_len min_len = emptyMsg) ∧
    (¬(text = "" ∨ pyStrip text = "") → text.length < 50 →
      summarize_text (some f) text max_len min_len = tooShortMsg) ∧
    emptyMsg ≠ tooShortMsg ∧
    summarize_text (some f) spaces60 max_len min_len = emptyMsg ∧
    ((text = "" ∨ (pyStrip text).length < 50) →
      TextProcessor.process (some g) (some p) text max_len min_len
        = (nerTooShortMsg, [])) := by
  refine ⟨?_, ?_, by decide, ?_, ?_⟩
  · intro hblank
    simp only [summarize_text]
    rw [if_pos hblank]
  · intro hblank hlen
    simp only [summarize_text]
    rw [if_neg hblank, if_pos hlen]
  · simp only [summarize_text]
    rw [if_pos (Or.inr (by decide))]
  · intro hshort
    simp only [TextProcessor.process]
    rw [if_pos hshort]

/-- Witness for the amended C6: a 10-character input gets the too-short
advisory from the single-model gate. -/
theorem validation_gate_advisories_witness :
    summarize_text (some okSummarizer) "0123456789" 130 30 = tooShortMsg :=
  (validation_gate_advisories okSummarizer okSummarizer okNer "0123456789" 130 30).2.1
    (by decide) (by decide)

/-- Claim C7, refuted for the NER app: `padded` (49 letters then 20 spaces)
has untrimmed length 69 ≥ 50, yet `TextProcessor.process` rejects it as too
short, because line 84 compares 50 against `len(text.strip())`, the trimmed
length 49. -/
theorem ner_length_check_uses_trimmed_length :
    padded.length = 69 ∧
      TextProcessor.process (some okSummarizer) (some okNer) padded 130 30
        = (nerTooShortMsg, []) := by
  constructor <;> rfl

/-- Claim C7 as amended: the single-model app's length check compares 50
against the original untrimmed length (a non-blank input of untrimmed length
≥ 50 reaches inference, one of untrimmed length < 50 is rejected), while the
NER app's combined check compares 50 against the trimmed length. -/
theorem length_checks_untrimmed_vs_trimmed
    (f g : String → Int → Int → Except String String)
    (p : String → Except String (List Entity))
    (text : String) (max_len min_len : Int) :
    (¬(text = "" ∨ pyStrip text = "") → 50 ≤ text.length →
      summarize_text (some f) text max_len min_len =
        (match f text max_len min_len with
          | Except.ok r => r
          | Except.error e => "An error occurred: " ++ e)) ∧
    (¬(text = "" ∨ pyStrip text = "") → text.length < 50 →
      summarize_text (some f) text max_len min_len = tooShortMsg) ∧
    ((pyStrip text).length < 50 →
      TextProcessor.process (some g) (some p) text max_len min_len
        = (nerTooShortMsg, [])) ∧
    (¬ text = "" → 50 ≤ (pyStrip text).length →
      TextProcessor.process (some g) (some p) text max_len min_len =
        (match g text max_len min_len with
          | Except.error e => ("Error during processing: " ++ e, [])
          | Except.ok st =>
            match p st with
            | Except.error e => ("Error during processing: " ++ e, [])
            | Except.ok ner_res => (st, stitchFrom st 0 ner_res))) := by
  refine ⟨?_, ?_, ?_, ?_⟩
  · intro hblank hlen
    simp only [summarize_text]
    rw [if_neg hblank, if_neg (by omega)]
  · intro hblank hlen
    simp only [summarize_text]
    rw [if_neg hblank, if_pos hlen]
  · intro hshort
    simp only [TextProcessor.process]
    rw [if_pos (Or.inr hshort)]
  · intro hne hlen
    have hgate : ¬(text = "" ∨ (pyStrip text).length < 50) := by
      rintro (h | h)
      · exact hne h
      · omega
    simp only [TextProcessor.process]
    rw [if_neg hgate]

/-- Witness for the amended C7: the padded input passes the single-model
gate (reaching the stub oracle) but is rejected by the NER gate. -/
theorem length_checks_untrimmed_vs_trimmed_witness :
    summarize_text (some okSummarizer) padded 130 30 = "SUMMARY" ∧
      TextProcessor.process (some okSummarizer) (some okNer) padded 130 30
        = (nerTooShortMsg, []) := by
  constructor
  · exact (length_checks_untrimmed_vs_trimmed okSummarizer okSummarizer okNer
      padded 130 30).1 (by decide) (by decide)
  · exact (length_checks_untrimmed_vs_trimmed okSummarizer okSummarizer okNer
      padded 130 30).2.2.1 (by decide)

/-- Claim C9: `summarize_text` always returns a string (it is total in this
embedding, as every Python path returns and the `try`/`except` catches any
inference exception), and each abnormal condition yields its descriptive
message as the return value: model not loaded, blank input, too-short
input, and a raised inference exception, with a successful inference
returning the summary itself. -/
theorem summarize_text_never_raises
    (o : Option (String → Int → Int → Except String String))
    (text : String) (max_len min_len : Int) :
    (o = none → summarize_text o text max_len min_len = notLoadedMsg) ∧
    (∀ f, o = some f → (text = "" ∨ pyStrip text = "") →
      summarize_text o text max_len min_len = emptyMsg) ∧
    (∀ f, o = some f → ¬(text = "" ∨ pyStrip text = "") → text.length < 50 →
      summarize_text o text max_len min_len = tooShortMsg) ∧
    (∀ f e, o = some f → ¬(text = "" ∨ pyStrip text = "") → 50 ≤ text.length →
      f text max_len min_len = Except.error e →
      summarize_text o text max_len min_len = "An error occurred: " ++ e) ∧
    (∀ f r, o = some f → ¬(text = "" ∨ pyStrip text = "") → 50 ≤ text.length →
      f text max_len min_len = Except.ok r →
      summarize_text o text max_len min_len = r) := by
  refine ⟨?_, ?_, ?_, ?_, ?_⟩
  · intro ho
    subst ho
    rfl
  · intro f ho hblank
    subst ho
    simp only [summarize_text]
    rw [if_pos hblank]
  · intro f ho hblank hlen
    subst ho
    simp only [summarize_text]
    rw [if_neg hblank, if_pos hlen]
  · intro f e ho hblank hlen herr
    subst ho
    simp only [summarize_text]
    rw [if_neg hblank, if_neg (by omega)]
    simp only [herr]
  · intro f r ho hblank hlen hok
    subst ho
    simp only [summarize_text]
    rw [if_neg hblank, if_neg (by omega)]
    simp only [hok]

/-- Witness for C9: a long non-blank input with a succeeding stub oracle
returns the oracle's summary. -/
theorem summarize_text_never_raises_witness :
    summarize_text (some okSummarizer) sampleLong 130 30 = "SUMMARY" :=
  (summarize_text_never_raises (some okSummarizer) sampleLong 130 30).2.2.2.2
    okSummarizer "SUMMARY" rfl (by decide) (by decide) rfl

/-- Claim C10: every warning or error outcome of `TextProcessor.process` —
models not initialized, input too short, a summarizer exception, or an NER
exception — pairs its message with the empty entity-segment list. -/
theorem process_warnings_have_no_entities
    (s : Option (String → Int → Int → Except String String))
    (n : Option (String → Except String (List Entity)))
    (text : String) (max_len min_len : Int) :
    (s = none ∨ n = none →
      TextProcessor.process s n text max_len min_len = (notInitMsg, [])) ∧
    (∀ f g, s = some f → n = some g → (text = "" ∨ (pyStrip text).length < 50) →
      TextProcessor.process s n text max_len min_len = (nerTooShortMsg, [])) ∧
    (∀ f g e, s = some f → n = some g → ¬(text = "" ∨ (pyStrip text).length < 50) →
      f text max_len min_len = Except.error e →
      TextProcessor.process s n text max_len min_len
        = ("Error during processing: " ++ e, [])) ∧
    (∀ f g st e, s = some f → n = some g → ¬(text = "" ∨ (pyStrip text).length < 50) →
      f text max_len min_len = Except.ok st → g st = Except.error e →
      TextProcessor.process s n text max_len min_len
        = ("Error during processing: " ++ e, [])) := by
  refine ⟨?_, ?_, ?_, ?_⟩
  · intro ho
    rcases ho with hs | hn
    · subst hs
      cases n <;> rfl
    · subst hn
      cases s <;> rfl
  · intro f g hs hn hshort
    subst hs
    subst hn
    simp only [TextProcessor.process]
    rw [if_pos hshort]
  · intro f g e hs hn hgate herr
    subst hs
    subst hn
    simp only [TextProcessor.process]
    rw [if_neg hgate]
    simp only [herr]
  · intro f g st e hs hn hgate hok herr
    subst hs
    subst hn
    simp only [TextProcessor.process]
    rw [if_neg hgate]
    simp only [hok, herr]

/-- Witness for C10: with no models loaded, the result is the
initialization message with an empty entity list. -/
theorem process_warnings_have_no_entities_witness :
    TextProcessor.process none none "" 0 0 = (notInitMsg, []) :=
  (process_warnings_have_no_entities none none "" 0 0).1 (Or.inl rfl)

end SummarizerApp
